import Mathlib

/-!
Shallow embedding of the Garden Lights receiver sketch
(src/GardenLightsReceiver.ino).

The sketch keeps per-channel state in parallel global arrays
(channel_mode, channel_pwm, channel_pulse, channel_time,
channel_pulse_value, channel_pulse_inc); here each channel is one record
and the store is a function from channel index to record.  Pin output
calls (digitalWrite / analogWrite) and power-down calls are modelled as
an explicit effect list.  C machine integers are modelled as Int / Nat;
the one place where unsigned 32-bit wraparound matters — the
millis()-based elapsed-time test in loop() — is modelled with an explicit
mod 2^32.  An out-of-bounds access into the channel arrays (undefined
behaviour in the C source) is modelled as the result none.
-/

namespace GardenLights

/-- MODE_OFF constant from the sketch. -/
def MODE_OFF : Int := 0

/-- MODE_ON constant from the sketch. -/
def MODE_ON : Int := 1

/-- MODE_PWM constant from the sketch. -/
def MODE_PWM : Int := 2

/-- MODE_PULSE constant from the sketch. -/
def MODE_PULSE : Int := 3

/-- NUM_CHANNELS constant from the sketch. -/
def NUM_CHANNELS : Nat := 2

/-- CHANNEL_OFFSET constant from the sketch (start of the channel field). -/
def CHANNEL_OFFSET : Nat := 5

/-- VALUE_OFFSET constant from the sketch (start of the value field). -/
def VALUE_OFFSET : Nat := 10

/-- CHANNEL_ONE_PIN constant from the sketch. -/
def CHANNEL_ONE_PIN : Nat := 3

/-- CHANNEL_TWO_PIN constant from the sketch. -/
def CHANNEL_TWO_PIN : Nat := 5

/-- NUM_SLEEPS constant from the sketch (3 power-down calls of 8 s each). -/
def NUM_SLEEPS : Nat := 3

/-- MODE_TEXT string constant from the sketch, as a character list. -/
def MODE_TEXT : List Char := "MODE".toList

/-- POTS_TEXT string constant from the sketch, as a character list. -/
def POTS_TEXT : List Char := "POTS".toList

/-- channel_pins array from setup(): channel 0 drives pin 3, channel 1 pin 5. -/
def channel_pins (c : Fin NUM_CHANNELS) : Nat :=
  if (c : Nat) = 0 then CHANNEL_ONE_PIN else CHANNEL_TWO_PIN

/-- Per-channel state: one slice through the sketch's parallel arrays
channel_mode, channel_pwm, channel_pulse, channel_time,
channel_pulse_value, channel_pulse_inc. -/
structure Channel where
  mode : Int
  pwm : Int
  pulse : Int
  time : Nat
  pulse_value : Int
  pulse_inc : Int
deriving DecidableEq

/-- Channel State Store: what the parallel arrays jointly hold. -/
def State : Type := Fin NUM_CHANNELS → Channel

instance : DecidableEq State := by
  unfold State
  infer_instance

/-- Channel record after the setup() initialisation loop:
mode OFF, pwm 255, pulse period 1024; the remaining globals are
zero-initialised C globals. -/
def initChannel : Channel :=
  { mode := MODE_OFF, pwm := 255, pulse := 1024, time := 0,
    pulse_value := 0, pulse_inc := 0 }

/-- Store after setup(): every channel is initChannel. -/
def initState : State := fun _ => initChannel

/-- Physical pin output effect: digitalWrite (level true = HIGH) or
analogWrite (0-255 duty). -/
inductive PinAction where
  | digital (pin : Nat) (high : Bool)
  | analog (pin : Nat) (value : Int)
deriving DecidableEq

/-- Character class accepted by C isspace in the default locale. -/
def isSpaceC (c : Char) : Bool :=
  c == ' ' || c == '\t' || c == '\n' ||
  c == Char.ofNat 11 || c == Char.ofNat 12 || c == '\r'

/-- Digit-scanning accumulator of C atoi: consume decimal digits until the
first non-digit, accumulating the value. -/
def digitsToNat : List Char → Nat → Nat
  | [], acc => acc
  | c :: rest, acc =>
      if c.isDigit then digitsToNat rest (10 * acc + (c.toNat - 48)) else acc

/-- C atoi as called by processCommand: skip leading whitespace, consume an
optional sign, then decimal digits up to the first non-digit; no digits
yields 0. -/
def atoi (s : List Char) : Int :=
  let t := s.dropWhile isSpaceC
  match t with
  | [] => 0
  | c :: rest =>
      if c = '-' then -(digitsToNat rest 0 : Int)
      else if c = '+' then (digitsToNat rest 0 : Int)
      else (digitsToNat (c :: rest) 0 : Int)

/-- Command kind: which 4-byte code matched. -/
inductive CommandKind where
  | MODE_CHANGE
  | POT_CHANGE
deriving DecidableEq

/-- Decoded command: kind, zero-based channel index, raw value. -/
structure Command where
  kind : CommandKind
  channel_index : Int
  value : Int
deriving DecidableEq

/-- Parsing section of processCommand (lines 232-238 and 274 of the
sketch): value is atoi of the buffer from VALUE_OFFSET; the buffer is
then truncated at VALUE_OFFSET and the channel is atoi from
CHANNEL_OFFSET, minus 1 to make it zero-based; the first 4 bytes are
compared with MODE_TEXT and POTS_TEXT.  A buffer matching neither yields
none (the message is dropped). -/
def decode (s : List Char) : Option Command :=
  let value := atoi (s.drop VALUE_OFFSET)
  let channel := atoi ((s.take VALUE_OFFSET).drop CHANNEL_OFFSET) - 1
  if s.take 4 = MODE_TEXT then
    some { kind := CommandKind.MODE_CHANGE, channel_index := channel, value := value }
  else if s.take 4 = POTS_TEXT then
    some { kind := CommandKind.POT_CHANGE, channel_index := channel, value := value }
  else
    none

/-- MODE branch of processCommand (lines 238-272): increment the mode,
wrap past MODE_PULSE back to MODE_OFF, then fire the side effect of the
entered mode: OFF drives the pin low, ON high, PWM re-applies the stored
pwm level, PULSE seeds the animation (stamp time, value 0, direction +1)
with no pin write. -/
def applyMode (c : Fin NUM_CHANNELS) (now : Nat) (st : State) :
    State × List PinAction :=
  let ch := st c
  let m0 := ch.mode + 1
  let m := if m0 > MODE_PULSE then MODE_OFF else m0
  let ch1 : Channel := { ch with mode := m }
  if m = MODE_OFF then
    (Function.update st c ch1, [PinAction.digital (channel_pins c) false])
  else if m = MODE_ON then
    (Function.update st c ch1, [PinAction.digital (channel_pins c) true])
  else if m = MODE_PWM then
    (Function.update st c ch1, [PinAction.analog (channel_pins c) ch1.pwm])
  else if m = MODE_PULSE then
    (Function.update st c
       { ch1 with time := now, pulse_value := 0, pulse_inc := 1 }, [])
  else
    (Function.update st c ch1, [])

/-- POTS branch of processCommand (lines 274-287): in PWM mode set
pwm to value/4 (C int division) and re-drive the pin; in PULSE mode set
the pulse period to value/4 with no pin write; otherwise do nothing. -/
def applyPots (c : Fin NUM_CHANNELS) (value : Int) (st : State) :
    State × List PinAction :=
  let ch := st c
  if ch.mode = MODE_PWM then
    let ch1 : Channel := { ch with pwm := Int.tdiv value 4 }
    (Function.update st c ch1, [PinAction.analog (channel_pins c) ch1.pwm])
  else if ch.mode = MODE_PULSE then
    (Function.update st c { ch with pulse := Int.tdiv value 4 }, [])
  else
    (st, [])

/-- Dispatch of a decoded command.  Both branches of the C code index the
channel arrays with the decoded channel immediately (channel_mode[channel]
is read or written before anything else); the C source performs no bounds
check, so an index outside [0, NUM_CHANNELS) is an out-of-bounds array
access — undefined behaviour — modelled here as none. -/
def dispatch (cmd : Command) (now : Nat) (st : State) :
    Option (State × List PinAction) :=
  if h : 0 ≤ cmd.channel_index ∧ cmd.channel_index < (NUM_CHANNELS : Int) then
    let c : Fin NUM_CHANNELS := ⟨cmd.channel_index.toNat, by omega⟩
    match cmd.kind with
    | CommandKind.MODE_CHANGE => some (applyMode c now st)
    | CommandKind.POT_CHANGE => some (applyPots c cmd.value st)
  else
    none

/-- processCommand (lines 230-290): parse the buffer and run the matching
branch; a buffer matching neither code leaves the store untouched and
writes no pin.  The result none marks the undefined behaviour of an
out-of-bounds channel index. -/
def processCommand (s : List Char) (now : Nat) (st : State) :
    Option (State × List PinAction) :=
  match decode s with
  | none => some (st, [])
  | some cmd => dispatch cmd now st

/-- Unsigned 32-bit subtraction, as in the C expression
millis() - channel_time[c] on unsigned long. -/
def u32sub (a b : Nat) : Nat :=
  (a % 4294967296 + (4294967296 - b % 4294967296)) % 4294967296

/-- C cast of a (possibly negative) int to unsigned long. -/
def toU32 (x : Int) : Nat := (x % 4294967296).toNat

/-- Pulse animator body for one channel (loop(), lines 208-224): when the
channel is in PULSE mode and more than pulse (cast to unsigned long)
milliseconds have elapsed since time, step pulse_value by pulse_inc,
clamp above 255 to 255 flipping the direction to -1, clamp below 0 to 0
flipping the direction to +1, write the value to the pin and stamp
time with the current millis. -/
def pulseTick (now : Nat) (c : Fin NUM_CHANNELS) (ch : Channel) :
    Channel × List PinAction :=
  if ch.mode = MODE_PULSE then
    if u32sub now ch.time > toU32 ch.pulse then
      let v0 := ch.pulse_value + ch.pulse_inc
      let p1 : Int × Int := if v0 > 255 then (255, -1) else (v0, ch.pulse_inc)
      let p2 : Int × Int := if p1.1 < 0 then (0, 1) else p1
      ({ ch with pulse_value := p2.1, pulse_inc := p2.2, time := now },
       [PinAction.analog (channel_pins c) p2.1])
    else
      (ch, [])
  else
    (ch, [])

/-- The per-tick animation pass of loop(): run pulseTick over all channels
in index order, collecting pin writes. -/
def animateAll (now : Nat) (st : State) : State × List PinAction :=
  (List.finRange NUM_CHANNELS).foldl
    (fun acc c =>
      let r := pulseTick now c (acc.1 c)
      (Function.update acc.1 c r.1, acc.2 ++ r.2))
    (st, [])

/-- Inputs read by one iteration of loop(): the sleep switch (true when
digitalRead(SLEEP_BUTTON_PIN) is LOW, i.e. the switch is on), the RTC
hour, the message delivered by the radio manager this tick (none when no
message is available), and the millis clock. -/
structure LoopInput where
  sleepButtonLow : Bool
  hour : Nat
  message : Option (List Char)
  now : Nat

/-- Observable effect of one loop iteration: a pin output or one
LowPower.powerDown(SLEEP_8S, ...) call. -/
inductive Effect where
  | pin (a : PinAction)
  | sleep8s
deriving DecidableEq

/-- One iteration of loop() (lines 169-228): if the sleep switch is on
and the hour is before 17, drive both channel pins low and power down
NUM_SLEEPS times, touching no channel state; otherwise process an
available message (if any) through processCommand and then run the pulse
animation over all channels. -/
def loopIter (inp : LoopInput) (st : State) : Option (State × List Effect) :=
  if inp.sleepButtonLow = true ∧ inp.hour < 17 then
    some (st, [Effect.pin (PinAction.digital CHANNEL_ONE_PIN false),
               Effect.pin (PinAction.digital CHANNEL_TWO_PIN false)] ++
              List.replicate NUM_SLEEPS Effect.sleep8s)
  else
    match inp.message with
    | some s =>
        match processCommand s inp.now st with
        | none => none
        | some (st1, acts1) =>
            let r := animateAll inp.now st1
            some (r.1, (acts1 ++ r.2).map Effect.pin)
    | none =>
        let r := animateAll inp.now st
        some (r.1, r.2.map Effect.pin)

/-- Channel 0 as a concrete index, for concrete instantiations. -/
def chan0 : Fin NUM_CHANNELS := ⟨0, by decide⟩

/-- Channel 1 as a concrete index, for concrete instantiations. -/
def chan1 : Fin NUM_CHANNELS := ⟨1, by decide⟩

lemma decode_mode_eq (s : List Char) (hcode : s.take 4 = MODE_TEXT) :
    decode s = some (Command.mk CommandKind.MODE_CHANGE
      (atoi ((s.take VALUE_OFFSET).drop CHANNEL_OFFSET) - 1)
      (atoi (s.drop VALUE_OFFSET))) := by
  unfold decode
  rw [hcode]
  simp

lemma decode_pots_eq (s : List Char) (hcode : s.take 4 = POTS_TEXT) :
    decode s = some (Command.mk CommandKind.POT_CHANGE
      (atoi ((s.take VALUE_OFFSET).drop CHANNEL_OFFSET) - 1)
      (atoi (s.drop VALUE_OFFSET))) := by
  unfold decode
  rw [hcode]
  have hne : POTS_TEXT ≠ MODE_TEXT := by decide
  simp [hne]

lemma dispatch_mode_coe (c : Fin NUM_CHANNELS) (v : Int) (now : Nat) (st : State) :
    dispatch (Command.mk CommandKind.MODE_CHANGE ((c : Nat) : Int) v) now st =
      some (applyMode c now st) := by
  fin_cases c <;> rfl

lemma dispatch_pots_coe (c : Fin NUM_CHANNELS) (v : Int) (now : Nat) (st : State) :
    dispatch (Command.mk CommandKind.POT_CHANGE ((c : Nat) : Int) v) now st =
      some (applyPots c v st) := by
  fin_cases c <;> rfl

lemma processCommand_mode (s : List Char) (now : Nat) (st : State)
    (c : Fin NUM_CHANNELS)
    (hcode : s.take 4 = MODE_TEXT)
    (hchan : atoi ((s.take VALUE_OFFSET).drop CHANNEL_OFFSET) - 1 = ((c : Nat) : Int)) :
    processCommand s now st = some (applyMode c now st) := by
  unfold processCommand
  simp only [decode_mode_eq s hcode, hchan]
  exact dispatch_mode_coe c _ now st

lemma processCommand_pots (s : List Char) (now : Nat) (st : State)
    (c : Fin NUM_CHANNELS)
    (hcode : s.take 4 = POTS_TEXT)
    (hchan : atoi ((s.take VALUE_OFFSET).drop CHANNEL_OFFSET) - 1 = ((c : Nat) : Int)) :
    processCommand s now st = some (applyPots c (atoi (s.drop VALUE_OFFSET)) st) := by
  unfold processCommand
  simp only [decode_pots_eq s hcode, hchan]
  exact dispatch_pots_coe c _ now st

lemma processCommand_mode_pair (s : List Char) (now : Nat) (st : State)
    (c : Fin NUM_CHANNELS)
    (hcode : s.take 4 = MODE_TEXT)
    (hchan : atoi ((s.take VALUE_OFFSET).drop CHANNEL_OFFSET) - 1 = ((c : Nat) : Int)) :
    processCommand s now st =
      some ((applyMode c now st).1, (applyMode c now st).2) :=
  (processCommand_mode s now st c hcode hchan).trans
    (congrArg some Prod.mk.eta.symm)

lemma processCommand_pots_pair (s : List Char) (now : Nat) (st : State)
    (c : Fin NUM_CHANNELS)
    (hcode : s.take 4 = POTS_TEXT)
    (hchan : atoi ((s.take VALUE_OFFSET).drop CHANNEL_OFFSET) - 1 = ((c : Nat) : Int)) :
    processCommand s now st =
      some ((applyPots c (atoi (s.drop VALUE_OFFSET)) st).1,
            (applyPots c (atoi (s.drop VALUE_OFFSET)) st).2) :=
  (processCommand_pots s now st c hcode hchan).trans
    (congrArg some Prod.mk.eta.symm)

lemma applyMode_mode_eq (c : Fin NUM_CHANNELS) (now : Nat) (st : State)
    (hmode : (st c).mode = MODE_OFF ∨ (st c).mode = MODE_ON ∨
             (st c).mode = MODE_PWM ∨ (st c).mode = MODE_PULSE) :
    ((applyMode c now st).1 c).mode = ((st c).mode + 1) % 4 := by
  rcases hmode with h | h | h | h <;>
    simp [applyMode, h, MODE_OFF, MODE_ON, MODE_PWM, MODE_PULSE,
          Function.update_same]


/-- C1: applying a MODE_CHANGE command advances the channel's mode exactly
one step along the cyclic sequence OFF, ON, PWM, PULSE — the new mode is
(old mode + 1) mod 4, independent of the command's value field — and four
consecutive MODE_CHANGE commands return the channel to its starting mode. -/
theorem C1_mode_change_cycles (st : State) (now : Nat) (s : List Char)
    (c : Fin NUM_CHANNELS)
    (hcode : s.take 4 = MODE_TEXT)
    (hchan : atoi ((s.take VALUE_OFFSET).drop CHANNEL_OFFSET) - 1 = ((c : Nat) : Int))
    (hmode : (st c).mode = MODE_OFF ∨ (st c).mode = MODE_ON ∨
             (st c).mode = MODE_PWM ∨ (st c).mode = MODE_PULSE) :
    ∃ st1 a1 st2 a2 st3 a3 st4 a4,
      processCommand s now st = some (st1, a1) ∧
      (st1 c).mode = ((st c).mode + 1) % 4 ∧
      processCommand s now st1 = some (st2, a2) ∧
      (st2 c).mode = ((st1 c).mode + 1) % 4 ∧
      processCommand s now st2 = some (st3, a3) ∧
      (st3 c).mode = ((st2 c).mode + 1) % 4 ∧
      processCommand s now st3 = some (st4, a4) ∧
      (st4 c).mode = ((st3 c).mode + 1) % 4 ∧
      (st4 c).mode = (st c).mode := by
  have step : ∀ stX : State,
      ((stX c).mode = MODE_OFF ∨ (stX c).mode = MODE_ON ∨
       (stX c).mode = MODE_PWM ∨ (stX c).mode = MODE_PULSE) →
      ∃ stY aY, processCommand s now stX = some (stY, aY) ∧
        (stY c).mode = ((stX c).mode + 1) % 4 ∧
        ((stY c).mode = MODE_OFF ∨ (stY c).mode = MODE_ON ∨
         (stY c).mode = MODE_PWM ∨ (stY c).mode = MODE_PULSE) := by
    intro stX hX
    have h := applyMode_mode_eq c now stX hX
    refine ⟨(applyMode c now stX).1, (applyMode c now stX).2,
            processCommand_mode_pair s now stX c hcode hchan, h, ?_⟩
    simp only [ MODE_OFF, MODE_ON, MODE_PWM, MODE_PULSE] at hX h ⊢
    omega
  obtain ⟨st1, a1, p1, h1, r1⟩ := step st hmode
  obtain ⟨st2, a2, p2, h2, r2⟩ := step st1 r1
  obtain ⟨st3, a3, p3, h3, r3⟩ := step st2 r2
  obtain ⟨st4, a4, p4, h4, r4⟩ := step st3 r3
  refine ⟨st1, a1, st2, a2, st3, a3, st4, a4, p1, h1, p2, h2, p3, h3, p4, h4, ?_⟩
  simp only [ MODE_OFF, MODE_ON, MODE_PWM, MODE_PULSE] at hmode
  clear p1 p2 p3 p4 r1 r2 r3 r4 step hcode hchan
  omega

/-- C1 witness: the concrete buffer "MODE 1    0" applied four times to the
freshly initialised store cycles channel 0's mode back to OFF. -/
theorem C1_witness :
    (("MODE 1    0".toList).take 4 = MODE_TEXT) ∧
    (∃ st1 a1 st2 a2 st3 a3 st4 a4,
      processCommand ("MODE 1    0".toList) 0 initState = some (st1, a1) ∧
      (st1 chan0).mode = ((initState chan0).mode + 1) % 4 ∧
      processCommand ("MODE 1    0".toList) 0 st1 = some (st2, a2) ∧
      (st2 chan0).mode = ((st1 chan0).mode + 1) % 4 ∧
      processCommand ("MODE 1    0".toList) 0 st2 = some (st3, a3) ∧
      (st3 chan0).mode = ((st2 chan0).mode + 1) % 4 ∧
      processCommand ("MODE 1    0".toList) 0 st3 = some (st4, a4) ∧
      (st4 chan0).mode = ((st3 chan0).mode + 1) % 4 ∧
      (st4 chan0).mode = (initState chan0).mode) :=
  ⟨by decide,
   C1_mode_change_cycles initState 0 ("MODE 1    0".toList) chan0
     (by decide) (by decide) (by decide)⟩

/-- C2: the claim says dispatch rejects an out-of-range channel index
before any indexing.  The code does not: on the buffer "MODE 3    0" the
decoder yields channel_index 2 (outside [0, NUM_CHANNELS)), and dispatch
immediately indexes the channel arrays with it — an out-of-bounds access,
modelled as none — instead of discarding the command and leaving state
untouched. -/
theorem C2_out_of_bounds_access :
    decode ("MODE 3    0".toList) =
      some (Command.mk CommandKind.MODE_CHANGE 2 0) ∧
    ((2 : Int) < (NUM_CHANNELS : Int) → False) ∧
    processCommand ("MODE 3    0".toList) 0 initState = none := by
  decide

/-- Concrete PULSE-mode channel one step below the upper clamp:
pulse_value 254, direction +1. -/
def pulseCh : Channel :=
  { mode := MODE_PULSE, pwm := 255, pulse := 1024, time := 0,
    pulse_value := 254, pulse_inc := 1 }

/-- C3 counterexample: the claim says a step that reaches 255 flips the
direction to -1.  From pulse_value 254 with direction +1, a due animator
step (2000 ms elapsed > period 1024) reaches exactly 255 but leaves the
direction at +1; the flip only happens on the following step, when the
value would exceed 255. -/
theorem C3_counterexample :
    (pulseTick 2000 chan0 pulseCh).1.pulse_value = 255 ∧
    (pulseTick 2000 chan0 pulseCh).1.pulse_inc = 1 ∧
    ((pulseTick 2000 chan0 pulseCh).1.pulse_inc = -1 → False) := by
  decide

/-- C3 amended: for a channel whose pulse_value is in [0, 255] and whose
direction is +1 or -1, an animator tick keeps pulse_value in [0, 255] and
the direction in {+1, -1}; on a due step whose incremented value would
exceed 255 the value is clamped to 255 and the direction flips to -1, and
on a due step whose incremented value would go below 0 the value is
clamped to 0 and the direction flips to +1.  (A step landing exactly on a
boundary keeps its direction; the flip fires on the following step.) -/
theorem C3_pulse_clamp (now : Nat) (c : Fin NUM_CHANNELS) (ch : Channel)
    (hv0 : 0 ≤ ch.pulse_value) (hv1 : ch.pulse_value ≤ 255)
    (hi : ch.pulse_inc = 1 ∨ ch.pulse_inc = -1) :
    (0 ≤ (pulseTick now c ch).1.pulse_value ∧
     (pulseTick now c ch).1.pulse_value ≤ 255) ∧
    ((pulseTick now c ch).1.pulse_inc = 1 ∨
     (pulseTick now c ch).1.pulse_inc = -1) ∧
    (ch.mode = MODE_PULSE → u32sub now ch.time > toU32 ch.pulse →
      (ch.pulse_value + ch.pulse_inc > 255 →
        (pulseTick now c ch).1.pulse_value = 255 ∧
        (pulseTick now c ch).1.pulse_inc = -1) ∧
      (ch.pulse_value + ch.pulse_inc < 0 →
        (pulseTick now c ch).1.pulse_value = 0 ∧
        (pulseTick now c ch).1.pulse_inc = 1)) := by
  simp only [pulseTick]
  split_ifs <;> simp_all
  omega

/-- C3 witness: the amended clamp theorem instantiated at the concrete
channel pulseCh and tick time 2000. -/
theorem C3_pulse_clamp_witness :
    (0 ≤ pulseCh.pulse_value ∧ pulseCh.pulse_value ≤ 255 ∧
     (pulseCh.pulse_inc = 1 ∨ pulseCh.pulse_inc = -1)) ∧
    ((0 ≤ (pulseTick 2000 chan1 pulseCh).1.pulse_value ∧
      (pulseTick 2000 chan1 pulseCh).1.pulse_value ≤ 255) ∧
     ((pulseTick 2000 chan1 pulseCh).1.pulse_inc = 1 ∨
      (pulseTick 2000 chan1 pulseCh).1.pulse_inc = -1) ∧
     (pulseCh.mode = MODE_PULSE →
      u32sub 2000 pulseCh.time > toU32 pulseCh.pulse →
      (pulseCh.pulse_value + pulseCh.pulse_inc > 255 →
        (pulseTick 2000 chan1 pulseCh).1.pulse_value = 255 ∧
        (pulseTick 2000 chan1 pulseCh).1.pulse_inc = -1) ∧
      (pulseCh.pulse_value + pulseCh.pulse_inc < 0 →
        (pulseTick 2000 chan1 pulseCh).1.pulse_value = 0 ∧
        (pulseTick 2000 chan1 pulseCh).1.pulse_inc = 1))) :=
  ⟨⟨by decide, by decide, by decide⟩,
   C3_pulse_clamp 2000 chan1 pulseCh (by decide) (by decide) (by decide)⟩

/-- C6 counterexample: the claim says decoding "POTS 2  512" yields
value 512.  In that buffer only the final character '2' sits at
VALUE_OFFSET (offset 10), so the decoded value is 2, not 512. -/
theorem C6_counterexample :
    (decode ("POTS 2  512".toList)).map Command.value = some 2 ∧
    ((decode ("POTS 2  512".toList)).map Command.value = some 512 → False) := by
  decide

/-- C6 amended: decoding "MODE 1    0" yields a MODE_CHANGE for
channel_index 0, and decoding "POTS 2  512" yields a POT_CHANGE with
channel_index 1 and value 2 (the value field starts at offset 10, where
only the final '2' of that buffer lies). -/
theorem C6_decode_examples :
    decode ("MODE 1    0".toList) =
      some (Command.mk CommandKind.MODE_CHANGE 0 0) ∧
    decode ("POTS 2  512".toList) =
      some (Command.mk CommandKind.POT_CHANGE 1 2) := by
  decide

/-- C8: a buffer whose first 4 bytes match neither "MODE" nor "POTS" is
dropped by processCommand: the store is returned unchanged and no pin is
driven. -/
theorem C8_unrecognized_no_mutation (s : List Char) (now : Nat) (st : State)
    (h1 : s.take 4 ≠ MODE_TEXT) (h2 : s.take 4 ≠ POTS_TEXT) :
    processCommand s now st = some (st, []) := by
  unfold processCommand decode
  simp [h1, h2]

/-- C8 witness: the unrecognized code "BLAH" leaves the initial store
untouched and writes no pin. -/
theorem C8_witness :
    (("BLAH 1    0".toList).take 4 ≠ MODE_TEXT ∧
     ("BLAH 1    0".toList).take 4 ≠ POTS_TEXT) ∧
    processCommand ("BLAH 1    0".toList) 0 initState = some (initState, []) :=
  ⟨⟨by decide, by decide⟩,
   C8_unrecognized_no_mutation ("BLAH 1    0".toList) 0 initState
     (by decide) (by decide)⟩

/-- C9 counterexample: the claim says a numeric field beginning with a
non-digit parses as 0.  The channel field of "MODE  1   0" begins with a
space (a non-digit), yet atoi skips the whitespace and parses 1, so the
decoded channel_index is 0, not -1. -/
theorem C9_counterexample :
    ((("MODE  1   0".toList).take VALUE_OFFSET).drop CHANNEL_OFFSET).head? =
      some ' ' ∧
    (' ').isDigit = false ∧
    atoi ((("MODE  1   0".toList).take VALUE_OFFSET).drop CHANNEL_OFFSET) = 1 ∧
    ((1 : Int) = 0 → False) := by
  decide

/-- C9 amended: a numeric field whose content begins with a character that
is neither a digit, nor C whitespace, nor a sign, parses as 0; leading
whitespace is skipped and an optional sign is consumed first (C atoi
semantics), so fields such as " 1  " parse as 1 rather than 0. -/
theorem C9_nondigit_parses_zero (l : List Char) (c : Char) (r : List Char)
    (hl : l = c :: r) (hs : isSpaceC c = false) (hd : c.isDigit = false)
    (hp : c ≠ '+') (hm : c ≠ '-') :
    atoi l = 0 := by
  subst hl
  simp [atoi, List.dropWhile, hs, hm, hp, digitsToNat, hd]

/-- C9 witness: the field "x23" begins with the non-digit, non-space,
non-sign character 'x' and parses as 0. -/
theorem C9_nondigit_parses_zero_witness :
    ("x23".toList = 'x' :: "23".toList ∧ isSpaceC 'x' = false ∧
     ('x').isDigit = false ∧ 'x' ≠ '+' ∧ 'x' ≠ '-') ∧
    atoi ("x23".toList) = 0 :=
  ⟨⟨by decide, by decide, by decide, by decide, by decide⟩,
   C9_nondigit_parses_zero ("x23".toList) 'x' ("23".toList)
     (by decide) (by decide) (by decide) (by decide) (by decide)⟩

lemma applyPots_pwm (c : Fin NUM_CHANNELS) (v : Int) (st : State)
    (h : (st c).mode = MODE_PWM) :
    applyPots c v st =
      (Function.update st c { st c with pwm := Int.tdiv v 4 },
       [PinAction.analog (channel_pins c) (Int.tdiv v 4)]) := by
  simp [applyPots, h]

lemma applyPots_pulse (c : Fin NUM_CHANNELS) (v : Int) (st : State)
    (h : (st c).mode = MODE_PULSE) :
    applyPots c v st =
      (Function.update st c { st c with pulse := Int.tdiv v 4 }, []) := by
  simp [applyPots, h, MODE_PWM, MODE_PULSE]

lemma applyPots_other (c : Fin NUM_CHANNELS) (v : Int) (st : State)
    (h1 : (st c).mode ≠ MODE_PWM) (h2 : (st c).mode ≠ MODE_PULSE) :
    applyPots c v st = (st, []) := by
  simp [applyPots, h1, h2]

lemma applyPots_mode_preserved (c : Fin NUM_CHANNELS) (v : Int) (st : State)
    (x : Fin NUM_CHANNELS) :
    ((applyPots c v st).1 x).mode = (st x).mode := by
  by_cases h1 : (st c).mode = MODE_PWM
  · rw [applyPots_pwm c v st h1]
    by_cases hx : x = c
    · subst hx
      simp
    · simp [Function.update_noteq hx]
  · by_cases h2 : (st c).mode = MODE_PULSE
    · rw [applyPots_pulse c v st h2]
      by_cases hx : x = c
      · subst hx
        simp
      · simp [Function.update_noteq hx]
    · rw [applyPots_other c v st h1 h2]

/-- C4: a POT_CHANGE command never changes any channel's mode; in PWM mode
it sets pwm to value/4 and immediately re-drives the pin with that duty;
in PULSE mode it sets the pulse period to value/4, leaves pulse_value
untouched, and writes no pin; in OFF or ON mode it changes no state and
writes no pin. -/
theorem C4_pot_change (st : State) (now : Nat) (s : List Char)
    (c : Fin NUM_CHANNELS)
    (hcode : s.take 4 = POTS_TEXT)
    (hchan : atoi ((s.take VALUE_OFFSET).drop CHANNEL_OFFSET) - 1 = ((c : Nat) : Int)) :
    ∃ st1 acts, processCommand s now st = some (st1, acts) ∧
      (∀ x, (st1 x).mode = (st x).mode) ∧
      ((st c).mode = MODE_PWM →
        st1 = Function.update st c
          { st c with pwm := Int.tdiv (atoi (s.drop VALUE_OFFSET)) 4 } ∧
        acts = [PinAction.analog (channel_pins c)
          (Int.tdiv (atoi (s.drop VALUE_OFFSET)) 4)]) ∧
      ((st c).mode = MODE_PULSE →
        st1 = Function.update st c
          { st c with pulse := Int.tdiv (atoi (s.drop VALUE_OFFSET)) 4 } ∧
        acts = []) ∧
      (((st c).mode = MODE_OFF ∨ (st c).mode = MODE_ON) →
        st1 = st ∧ acts = []) := by
  refine ⟨(applyPots c (atoi (s.drop VALUE_OFFSET)) st).1,
          (applyPots c (atoi (s.drop VALUE_OFFSET)) st).2,
          processCommand_pots_pair s now st c hcode hchan,
          fun x => applyPots_mode_preserved c _ st x, ?_, ?_, ?_⟩
  · intro h
    rw [applyPots_pwm c _ st h]
    exact ⟨rfl, rfl⟩
  · intro h
    rw [applyPots_pulse c _ st h]
    exact ⟨rfl, rfl⟩
  · intro h
    have h1 : (st c).mode ≠ MODE_PWM := by
      rcases h with h | h <;> rw [h] <;> decide
    have h2 : (st c).mode ≠ MODE_PULSE := by
      rcases h with h | h <;> rw [h] <;> decide
    rw [applyPots_other c _ st h1 h2]
    exact ⟨rfl, rfl⟩

/-- Store with every channel in PWM mode, otherwise as initialised. -/
def pwmState : State := fun _ => { initChannel with mode := MODE_PWM }

/-- C4 witness: the concrete buffer "POTS 1    800" applied to a store in
PWM mode sets channel 0's pwm to 200 and re-drives its pin. -/
theorem C4_witness :
    (("POTS 1    800".toList).take 4 = POTS_TEXT ∧
     atoi ((("POTS 1    800".toList).take VALUE_OFFSET).drop CHANNEL_OFFSET) - 1 =
       ((chan0 : Nat) : Int)) ∧
    (∃ st1 acts,
      processCommand ("POTS 1    800".toList) 0 pwmState = some (st1, acts) ∧
      (∀ x, (st1 x).mode = (pwmState x).mode) ∧
      ((pwmState chan0).mode = MODE_PWM →
        st1 = Function.update pwmState chan0
          { pwmState chan0 with
            pwm := Int.tdiv (atoi (("POTS 1    800".toList).drop VALUE_OFFSET)) 4 } ∧
        acts = [PinAction.analog (channel_pins chan0)
          (Int.tdiv (atoi (("POTS 1    800".toList).drop VALUE_OFFSET)) 4)]) ∧
      ((pwmState chan0).mode = MODE_PULSE →
        st1 = Function.update pwmState chan0
          { pwmState chan0 with
            pulse := Int.tdiv (atoi (("POTS 1    800".toList).drop VALUE_OFFSET)) 4 } ∧
        acts = []) ∧
      (((pwmState chan0).mode = MODE_OFF ∨ (pwmState chan0).mode = MODE_ON) →
        st1 = pwmState ∧ acts = [])) :=
  ⟨⟨by decide, by decide⟩,
   C4_pot_change pwmState 0 ("POTS 1    800".toList) chan0
     (by decide) (by decide)⟩

lemma applyMode_pwm_to_pulse (c : Fin NUM_CHANNELS) (now : Nat) (st : State)
    (h : (st c).mode = MODE_PWM) :
    applyMode c now st =
      (Function.update st c
        { st c with mode := MODE_PULSE, time := now,
                    pulse_value := 0, pulse_inc := 1 }, []) := by
  simp [applyMode, h, MODE_OFF, MODE_ON, MODE_PWM, MODE_PULSE]

/-- C5: a MODE_CHANGE that enters PULSE mode (i.e. from PWM) resets
pulse_value to 0 and pulse_direction to +1 and stamps last_step_time with
the current tick time, whatever the prior animation state was. -/
theorem C5_enter_pulse_resets (st : State) (now : Nat) (s : List Char)
    (c : Fin NUM_CHANNELS)
    (hcode : s.take 4 = MODE_TEXT)
    (hchan : atoi ((s.take VALUE_OFFSET).drop CHANNEL_OFFSET) - 1 = ((c : Nat) : Int))
    (hmode : (st c).mode = MODE_PWM) :
    ∃ st1 acts, processCommand s now st = some (st1, acts) ∧
      (st1 c).mode = MODE_PULSE ∧ (st1 c).pulse_value = 0 ∧
      (st1 c).pulse_inc = 1 ∧ (st1 c).time = now := by
  refine ⟨(applyMode c now st).1, (applyMode c now st).2,
          processCommand_mode_pair s now st c hcode hchan, ?_, ?_, ?_, ?_⟩ <;>
    simp [applyMode_pwm_to_pulse c now st hmode]

/-- Store with every channel in PWM mode but carrying stale animation
state: pulse_value 200, direction -1, old time stamp 5. -/
def midPulseState : State :=
  fun _ =>
    { initChannel with
      mode := MODE_PWM, pulse_value := 200, pulse_inc := -1, time := 5 }

/-- C5 witness: from a PWM channel with stale animation state
(pulse_value 200, direction -1), the concrete buffer "MODE 1    0"
enters PULSE and reseeds the animation at time 77. -/
theorem C5_witness :
    (("MODE 1    0".toList).take 4 = MODE_TEXT ∧
     atoi ((("MODE 1    0".toList).take VALUE_OFFSET).drop CHANNEL_OFFSET) - 1 =
       ((chan0 : Nat) : Int) ∧
     (midPulseState chan0).mode = MODE_PWM) ∧
    (∃ st1 acts,
      processCommand ("MODE 1    0".toList) 77 midPulseState = some (st1, acts) ∧
      (st1 chan0).mode = MODE_PULSE ∧ (st1 chan0).pulse_value = 0 ∧
      (st1 chan0).pulse_inc = 1 ∧ (st1 chan0).time = 77) :=
  ⟨⟨by decide, by decide, by decide⟩,
   C5_enter_pulse_resets midPulseState 77 ("MODE 1    0".toList) chan0
     (by decide) (by decide) (by decide)⟩

lemma u32sub_add (a d : Nat) (hd : d < 4294967296) :
    u32sub (a + d) a = d := by
  unfold u32sub
  omega

/-- C10: a MODE_CHANGE that enters PULSE mode performs no pin write in
that dispatch (the action list is empty, so the pin keeps whatever the
previous mode last drove), and an animator tick at most pulse_period_ms
after the transition performs no step and no write either. -/
theorem C10_enter_pulse_no_write (st : State) (now d : Nat) (s : List Char)
    (c : Fin NUM_CHANNELS)
    (hcode : s.take 4 = MODE_TEXT)
    (hchan : atoi ((s.take VALUE_OFFSET).drop CHANNEL_OFFSET) - 1 = ((c : Nat) : Int))
    (hmode : (st c).mode = MODE_PWM)
    (hp0 : 0 ≤ (st c).pulse) (hp1 : (st c).pulse < 4294967296)
    (hd : (d : Int) ≤ (st c).pulse) :
    ∃ st1, processCommand s now st = some (st1, []) ∧
      pulseTick (now + d) c (st1 c) = (st1 c, []) := by
  refine ⟨Function.update st c
      { st c with mode := MODE_PULSE, time := now,
                  pulse_value := 0, pulse_inc := 1 }, ?_, ?_⟩
  · rw [processCommand_mode s now st c hcode hchan,
        applyMode_pwm_to_pulse c now st hmode]
  · rw [Function.update_same]
    have hs : u32sub (now + d) now = d := u32sub_add now d (by omega)
    have ht : toU32 ((st c).pulse) = ((st c).pulse).toNat := by
      unfold toU32
      rw [Int.emod_eq_of_lt hp0 hp1]
    have hgt : ¬ (u32sub (now + d) now > toU32 ((st c).pulse)) := by
      rw [hs, ht]
      omega
    simp [pulseTick, hgt]

/-- C10 witness: from a PWM store, the buffer "MODE 1    0" enters PULSE
at time 100 with no pin write, and an animator tick 1024 ms later (the
default period) still performs no write. -/
theorem C10_witness :
    (("MODE 1    0".toList).take 4 = MODE_TEXT ∧
     atoi ((("MODE 1    0".toList).take VALUE_OFFSET).drop CHANNEL_OFFSET) - 1 =
       ((chan0 : Nat) : Int) ∧
     (pwmState chan0).mode = MODE_PWM ∧
     0 ≤ (pwmState chan0).pulse ∧ (pwmState chan0).pulse < 4294967296 ∧
     ((1024 : Nat) : Int) ≤ (pwmState chan0).pulse) ∧
    (∃ st1, processCommand ("MODE 1    0".toList) 100 pwmState = some (st1, []) ∧
      pulseTick (100 + 1024) chan0 (st1 chan0) = (st1 chan0, [])) :=
  ⟨⟨by decide, by decide, by decide, by decide, by decide, by decide⟩,
   C10_enter_pulse_no_write pwmState 100 1024 ("MODE 1    0".toList) chan0
     (by decide) (by decide) (by decide) (by decide) (by decide) (by decide)⟩

/-- C7: when the sleep switch is asserted and the hour is before 17
(which includes the past-midnight early hours), a loop iteration drives
both channel pins to logical low, performs the bounded 8-second power-down
exactly NUM_SLEEPS = 3 times, changes no channel state, polls no message,
dispatches no command and steps no pulse animation; the outcome is the
same whatever message might be pending. -/
theorem C7_sleep_branch (inp : LoopInput) (st : State)
    (hs : inp.sleepButtonLow = true) (hh : inp.hour < 17) :
    loopIter inp st =
      some (st, [Effect.pin (PinAction.digital CHANNEL_ONE_PIN false),
                 Effect.pin (PinAction.digital CHANNEL_TWO_PIN false),
                 Effect.sleep8s, Effect.sleep8s, Effect.sleep8s]) ∧
    (∀ msg, loopIter { inp with message := msg } st = loopIter inp st) := by
  constructor
  · unfold loopIter
    rw [if_pos ⟨hs, hh⟩]
    rfl
  · intro msg
    simp [loopIter, hs, hh]

/-- C7 witness: with the sleep switch on at hour 5 and a pending MODE
message, the iteration only lowers both pins and sleeps three times,
leaving the store untouched. -/
theorem C7_witness :
    ((LoopInput.mk true 5 (some ("MODE 1    0".toList)) 7).sleepButtonLow = true ∧
     (LoopInput.mk true 5 (some ("MODE 1    0".toList)) 7).hour < 17) ∧
    loopIter (LoopInput.mk true 5 (some ("MODE 1    0".toList)) 7) initState =
      some (initState,
        [Effect.pin (PinAction.digital CHANNEL_ONE_PIN false),
         Effect.pin (PinAction.digital CHANNEL_TWO_PIN false),
         Effect.sleep8s, Effect.sleep8s, Effect.sleep8s]) :=
  ⟨⟨by decide, by decide⟩,
   (C7_sleep_branch (LoopInput.mk true 5 (some ("MODE 1    0".toList)) 7)
     initState (by decide) (by decide)).1⟩

end GardenLights
